import Mathlib

/-!
Verification of the Mergington High School activities API (src/app.py).

The store is the in-memory dict `activities`, modelled as an association
list from activity name to activity record; Python dicts have unique keys
and preserve insertion order, and lookups take the first (only) matching
entry. The two data endpoints are modelled as pure functions from the
store state: `get_activities` returns the store unchanged, and
`signup_for_activity` returns an HTTP-level response together with the
store state after the call.
-/

/-- An activity record, with the four fields of each value of the
`activities` dict in src/app.py. -/
structure Activity where
  description : String
  schedule : String
  max_participants : Nat
  participants : List String
deriving Repr, DecidableEq

/-- The in-memory store: a mapping from activity name to activity record. -/
abbrev Store := List (String × Activity)

/-- Dict key lookup, `activities[activity_name]`: the value of the first
entry whose key equals the given name, or `none` when the name is not a key
(`activity_name not in activities`). -/
def lookupActivity : Store → String → Option Activity
  | [], _ => none
  | (k, v) :: rest, name => if k = name then some v else lookupActivity rest name

/-- The observable HTTP response of an endpoint call: either a 200 success
whose JSON body is the dict with the given confirmation message, or an
`HTTPException` carrying a status code and a `detail` string. -/
inductive Response where
  | success (message : String) : Response
  | error (status : Nat) (detail : String) : Response
deriving Repr, DecidableEq

/-- The HTTP status code of a response; a plain dict return in FastAPI is
sent with status 200. -/
def Response.status : Response → Nat
  | .success _ => 200
  | .error s _ => s

/-- In-place update of the value stored under an existing key, as performed
by `activity["participants"].append(email)` on the dict entry: every entry
whose key matches is replaced, all other entries are untouched and order is
preserved. -/
def updateStore : Store → String → Activity → Store
  | [], _, _ => []
  | (k, v) :: rest, name, act =>
      if k = name then (k, act) :: updateStore rest name act
      else (k, v) :: updateStore rest name act

/-- `GET /activities` handler: returns the full store and does not change
it. First component is the response body, second the store state after the
call. -/
def get_activities (store : Store) : Store × Store := (store, store)

/-- `POST /activities/{activity_name}/signup` handler, from src/app.py:
404 when the name is not a key of the store, 400 when the email is already
in that activity, otherwise append the email to the participants list and
return the confirmation message. -/
def signup_for_activity (store : Store) (activity_name email : String) :
    Response × Store :=
  match lookupActivity store activity_name with
  | none => (Response.error 404 ("Activity not found"), store)
  | some activity =>
      if email ∈ activity.participants then
        (Response.error 400 ("Student is already signed up"), store)
      else
        (Response.success (("Signed up ") ++ email ++ (" for ") ++ activity_name),
         updateStore store activity_name
           { activity with participants := activity.participants ++ [email] })

/-- The seed store at process start, copied field by field from the
`activities` dict literal in src/app.py. -/
def activities : Store :=
  [ ("Chess Club",
     { description := "Learn strategies and compete in chess tournaments",
       schedule := "Fridays, 3:30 PM - 5:00 PM",
       max_participants := 12,
       participants := ["michael@mergington.edu", "daniel@mergington.edu"] }),
    ("Programming Class",
     { description := "Learn programming fundamentals and build software projects",
       schedule := "Tuesdays and Thursdays, 3:30 PM - 4:30 PM",
       max_participants := 20,
       participants := ["emma@mergington.edu", "sophia@mergington.edu"] }),
    ("Gym Class",
     { description := "Physical education and sports activities",
       schedule := "Mondays, Wednesdays, Fridays, 2:00 PM - 3:00 PM",
       max_participants := 30,
       participants := ["john@mergington.edu", "olivia@mergington.edu"] }) ]

/-- One API call against the store: a signup with its two parameters, or a
listing. -/
inductive ApiCall where
  | signup (activity_name email : String) : ApiCall
  | getActivities : ApiCall

/-- The store state after one API call. -/
def applyCall (store : Store) : ApiCall → Store
  | .signup name email => (signup_for_activity store name email).2
  | .getActivities => (get_activities store).2

/-- The store state after a finite sequence of API calls. -/
def runCalls (store : Store) (calls : List ApiCall) : Store :=
  calls.foldl applyCall store

/-- Invariant: no activity of the store has a duplicate email in its
participants list. -/
def NoDupParticipants (store : Store) : Prop :=
  ∀ p ∈ store, p.2.participants.Nodup

instance (store : Store) : Decidable (NoDupParticipants store) :=
  List.decidableBAll _ store

/-! ### Helper lemmas about lookup and update -/

theorem lookupActivity_mem (store : Store) (name : String) (act : Activity)
    (h : lookupActivity store name = some act) : (name, act) ∈ store := by
  induction store with
  | nil => simp [lookupActivity] at h
  | cons p rest ih =>
      obtain ⟨k, v⟩ := p
      by_cases hk : k = name
      · subst hk
        simp [lookupActivity] at h
        subst h
        exact List.mem_cons_self _ _
      · simp [lookupActivity, hk] at h
        exact List.mem_cons_of_mem _ (ih h)

theorem lookupActivity_updateStore_self (store : Store) (name : String)
    (act₀ act : Activity) (h : lookupActivity store name = some act₀) :
    lookupActivity (updateStore store name act) name = some act := by
  induction store with
  | nil => simp [lookupActivity] at h
  | cons p rest ih =>
      obtain ⟨k, v⟩ := p
      by_cases hk : k = name
      · subst hk
        simp [updateStore, lookupActivity]
      · simp [lookupActivity, hk] at h
        simp [updateStore, hk, lookupActivity, ih h]

theorem lookupActivity_updateStore_other (store : Store) (name k : String)
    (act : Activity) (hne : k ≠ name) :
    lookupActivity (updateStore store name act) k = lookupActivity store k := by
  induction store with
  | nil => simp [updateStore]
  | cons p rest ih =>
      obtain ⟨k', v⟩ := p
      by_cases hk : k' = name
      · subst hk
        have : ¬ (k' = k) := fun hkk => hne (hkk ▸ rfl)
        simp [updateStore, lookupActivity, this, ih]
      · by_cases hk2 : k' = k
        · subst hk2
          simp [updateStore, hk, lookupActivity]
        · simp [updateStore, hk, lookupActivity, hk2, ih]

theorem mem_updateStore (store : Store) (name : String) (act : Activity)
    (p : String × Activity) (hp : p ∈ updateStore store name act) :
    p ∈ store ∨ p.2 = act := by
  induction store with
  | nil => simp [updateStore] at hp
  | cons q rest ih =>
      obtain ⟨k, v⟩ := q
      by_cases hk : k = name
      · simp [updateStore, hk] at hp
        rcases hp with hp | hp
        · right; rw [hp]
        · rcases ih hp with h1 | h1
          · exact Or.inl (List.mem_cons_of_mem _ h1)
          · exact Or.inr h1
      · simp [updateStore, hk] at hp
        rcases hp with hp | hp
        · exact Or.inl (by simp [hp])
        · rcases ih hp with h1 | h1
          · exact Or.inl (List.mem_cons_of_mem _ h1)
          · exact Or.inr h1

theorem signup_preserves_nodup (store : Store) (n e : String)
    (h : NoDupParticipants store) :
    NoDupParticipants (signup_for_activity store n e).2 := by
  unfold signup_for_activity
  cases heq : lookupActivity store n with
  | none => simpa using h
  | some act =>
      by_cases hm : e ∈ act.participants
      · simpa [hm] using h
      · simp only [hm, if_false]
        intro p hp
        rcases mem_updateStore store n _ p hp with h1 | h1
        · exact h p h1
        · rw [h1]
          have hnd : act.participants.Nodup :=
            h (n, act) (lookupActivity_mem store n act heq)
          simpa [← List.concat_eq_append] using List.Nodup.concat hm hnd

theorem runCalls_preserves_nodup (calls : List ApiCall) (store : Store)
    (h : NoDupParticipants store) : NoDupParticipants (runCalls store calls) := by
  induction calls generalizing store with
  | nil => exact h
  | cons c cs ih =>
      cases c with
      | signup name email =>
          exact ih _ (signup_preserves_nodup store name email h)
      | getActivities => exact ih _ h

/-! ### Claim theorems -/

/-- Claim C1: for every store state, every activity_name that is a key of
the store, and every email not present in that participants list,
signup_for_activity succeeds with HTTP 200, returns the JSON body with
message "Signed up (email) for (activity_name)", and the new state has the
email appended at the end of that participants list, the previous
participants unchanged and in their original order. -/
theorem signup_success_appends (store : Store) (activity_name email : String)
    (act : Activity) (hk : lookupActivity store activity_name = some act)
    (he : email ∉ act.participants) :
    (signup_for_activity store activity_name email).1 =
        Response.success (("Signed up ") ++ email ++ (" for ") ++ activity_name) ∧
    ((signup_for_activity store activity_name email).1).status = 200 ∧
    lookupActivity (signup_for_activity store activity_name email).2 activity_name =
      some { act with participants := act.participants ++ [email] } := by
  have h2 := lookupActivity_updateStore_self store activity_name act
      { act with participants := act.participants ++ [email] } hk
  simp [signup_for_activity, hk, he, Response.status, h2]

/-- Witness for C1 at the seed store: signing alice@mergington.edu up for
Chess Club succeeds and appends her email after the two seed emails. -/
theorem signup_success_appends_w :
    (signup_for_activity activities ("Chess Club") ("alice@mergington.edu")).1 =
        Response.success (("Signed up ") ++ ("alice@mergington.edu") ++
          (" for ") ++ ("Chess Club")) ∧
    ((signup_for_activity activities ("Chess Club") ("alice@mergington.edu")).1).status = 200 ∧
    lookupActivity
        (signup_for_activity activities ("Chess Club") ("alice@mergington.edu")).2
        ("Chess Club") =
      some { description := "Learn strategies and compete in chess tournaments",
             schedule := "Fridays, 3:30 PM - 5:00 PM",
             max_participants := 12,
             participants := ["michael@mergington.edu", "daniel@mergington.edu",
                              "alice@mergington.edu"] } :=
  signup_success_appends activities ("Chess Club") ("alice@mergington.edu")
    { description := "Learn strategies and compete in chess tournaments",
      schedule := "Fridays, 3:30 PM - 5:00 PM",
      max_participants := 12,
      participants := ["michael@mergington.edu", "daniel@mergington.edu"] }
    (by rfl) (by decide)

/-- Claim C2: for an activity_name that is a key of the store,
signup_for_activity fails with HTTP 400 and detail "Student is already
signed up" exactly when the email is already present in that participants
list, and such a failing call leaves the store unchanged. -/
theorem signup_duplicate_iff (store : Store) (activity_name email : String)
    (act : Activity) (hk : lookupActivity store activity_name = some act) :
    ((signup_for_activity store activity_name email).1 =
        Response.error 400 ("Student is already signed up") ↔
      email ∈ act.participants) ∧
    (email ∈ act.participants →
      (signup_for_activity store activity_name email).2 = store) := by
  by_cases hm : email ∈ act.participants
  · simp [signup_for_activity, hk, hm]
  · simp [signup_for_activity, hk, hm]

/-- Witness for C2 at the seed store: michael@mergington.edu is already in
Chess Club, so the second signup fails with 400 and the store is unchanged. -/
theorem signup_duplicate_iff_w :
    (signup_for_activity activities ("Chess Club") ("michael@mergington.edu")).1 =
        Response.error 400 ("Student is already signed up") ∧
    (signup_for_activity activities ("Chess Club") ("michael@mergington.edu")).2 =
      activities := by
  have h := signup_duplicate_iff activities ("Chess Club") ("michael@mergington.edu")
      { description := "Learn strategies and compete in chess tournaments",
        schedule := "Fridays, 3:30 PM - 5:00 PM",
        max_participants := 12,
        participants := ["michael@mergington.edu", "daniel@mergington.edu"] }
      (by rfl)
  exact ⟨h.1.mpr (by decide), h.2 (by decide)⟩

/-- Claim C3: for every store state, every email, and every activity_name
that is not a key of the store, signup_for_activity fails with HTTP 404 and
detail "Activity not found", and the store after the call equals the store
before the call. -/
theorem signup_not_found (store : Store) (activity_name email : String)
    (hk : lookupActivity store activity_name = none) :
    signup_for_activity store activity_name email =
      (Response.error 404 ("Activity not found"), store) := by
  simp [signup_for_activity, hk]

/-- Witness for C3 at the seed store with an unknown activity name. -/
theorem signup_not_found_w :
    signup_for_activity activities ("Nonexistent Club") ("x@mergington.edu") =
      (Response.error 404 ("Activity not found"), activities) :=
  signup_not_found activities ("Nonexistent Club") ("x@mergington.edu") (by decide)

/-- Claim C4: every store state reachable from the seed state by a finite
sequence of signup_for_activity and get_activities calls has no duplicate
email in any participants list; in particular a single signup_for_activity
call preserves this no-duplicates invariant. -/
theorem participants_nodup_reachable :
    (∀ calls : List ApiCall, NoDupParticipants (runCalls activities calls)) ∧
    (∀ (store : Store) (n e : String), NoDupParticipants store →
        NoDupParticipants (signup_for_activity store n e).2) :=
  ⟨fun calls => runCalls_preserves_nodup calls activities (by decide),
   fun store n e h => signup_preserves_nodup store n e h⟩

/-- Witness for C4: a concrete call sequence from the seed keeps the
invariant, and one signup from the seed store preserves it. -/
theorem participants_nodup_reachable_w :
    NoDupParticipants (runCalls activities
        [ApiCall.signup ("Gym Class") ("michael@mergington.edu"),
         ApiCall.getActivities,
         ApiCall.signup ("Chess Club") ("michael@mergington.edu")]) ∧
    NoDupParticipants
      (signup_for_activity activities ("Chess Club") ("alice@mergington.edu")).2 :=
  ⟨participants_nodup_reachable.1 _,
   participants_nodup_reachable.2 activities ("Chess Club") ("alice@mergington.edu")
     (by decide)⟩

/-- Claim C5: signup_for_activity performs no capacity check: with the
activity present and the email new, the signup succeeds with HTTP 200 even
when the participants list already has length at least max_participants. -/
theorem signup_no_capacity_check (store : Store) (activity_name email : String)
    (act : Activity) (hk : lookupActivity store activity_name = some act)
    (he : email ∉ act.participants)
    (hfull : act.max_participants ≤ act.participants.length) :
    ((signup_for_activity store activity_name email).1).status = 200 ∧
    (signup_for_activity store activity_name email).1 =
      Response.success (("Signed up ") ++ email ++ (" for ") ++ activity_name) := by
  simp [signup_for_activity, hk, he, Response.status]

/-- Witness for C5: an activity already at its declared capacity of 1 still
accepts a second participant. -/
theorem signup_no_capacity_check_w :
    ((signup_for_activity
        [(("Tiny Club"),
          { description := "d", schedule := "s", max_participants := 1,
            participants := ["a@mergington.edu"] })]
        ("Tiny Club") ("b@mergington.edu")).1).status = 200 ∧
    (signup_for_activity
        [(("Tiny Club"),
          { description := "d", schedule := "s", max_participants := 1,
            participants := ["a@mergington.edu"] })]
        ("Tiny Club") ("b@mergington.edu")).1 =
      Response.success (("Signed up ") ++ ("b@mergington.edu") ++
        (" for ") ++ ("Tiny Club")) :=
  signup_no_capacity_check _ ("Tiny Club") ("b@mergington.edu")
    { description := "d", schedule := "s", max_participants := 1,
      participants := ["a@mergington.edu"] }
    (by rfl) (by decide) (by decide)

/-- Claim C6: get_activities has no side effects and returns the full
current store (each value an Activity record with its four fields);
two consecutive calls with no intervening signup return identical data. -/
theorem get_activities_pure (store : Store) :
    (get_activities store).1 = store ∧
    (get_activities store).2 = store ∧
    (get_activities ((get_activities store).2)).1 = (get_activities store).1 :=
  ⟨rfl, rfl, rfl⟩

/-- Claim C7: the initial store consists of exactly the three seed
activities, in order Chess Club, Programming Class, Gym Class, with the
fields the claim lists: Chess Club with its description, schedule, capacity
12 and its two seed participants in order; Programming Class with capacity
20 and its two seed participants; Gym Class with capacity 30 and its two
seed participants. -/
theorem seed_state :
    activities.map Prod.fst = ["Chess Club", "Programming Class", "Gym Class"] ∧
    activities.length = 3 ∧
    lookupActivity activities ("Chess Club") =
      some { description := "Learn strategies and compete in chess tournaments",
             schedule := "Fridays, 3:30 PM - 5:00 PM",
             max_participants := 12,
             participants := ["michael@mergington.edu", "daniel@mergington.edu"] } ∧
    (∃ a, lookupActivity activities ("Programming Class") = some a ∧
        a.max_participants = 20 ∧
        a.participants = ["emma@mergington.edu", "sophia@mergington.edu"]) ∧
    (∃ a, lookupActivity activities ("Gym Class") = some a ∧
        a.max_participants = 30 ∧
        a.participants = ["john@mergington.edu", "olivia@mergington.edu"]) :=
  ⟨by decide, by decide, by rfl,
   ⟨_, by rfl, by rfl, by rfl⟩, ⟨_, by rfl, by rfl, by rfl⟩⟩

/-- Claim C8: a successful signup for activity A mutates only the
participants field of A: every activity under a different key is unchanged,
and the description, schedule and max_participants of A are unchanged. -/
theorem signup_frame (store : Store) (activity_name email : String)
    (act : Activity) (hk : lookupActivity store activity_name = some act)
    (he : email ∉ act.participants) :
    (∀ k, k ≠ activity_name →
        lookupActivity (signup_for_activity store activity_name email).2 k =
          lookupActivity store k) ∧
    (∃ a, lookupActivity (signup_for_activity store activity_name email).2
            activity_name = some a ∧
        a.description = act.description ∧ a.schedule = act.schedule ∧
        a.max_participants = act.max_participants) := by
  have hred : (signup_for_activity store activity_name email).2 =
      updateStore store activity_name
        { act with participants := act.participants ++ [email] } := by
    simp [signup_for_activity, hk, he]
  constructor
  · intro k hkne
    rw [hred]
    exact lookupActivity_updateStore_other store activity_name k _ hkne
  · refine ⟨{ act with participants := act.participants ++ [email] }, ?_, rfl, rfl, rfl⟩
    rw [hred]
    exact lookupActivity_updateStore_self store activity_name act _ hk

/-- Witness for C8 at the seed store: after signing alice@mergington.edu up
for Chess Club, Gym Class is unchanged and the non-participants fields of
Chess Club are unchanged. -/
theorem signup_frame_w :
    lookupActivity
        (signup_for_activity activities ("Chess Club") ("alice@mergington.edu")).2
        ("Gym Class") = lookupActivity activities ("Gym Class") ∧
    (∃ a, lookupActivity
            (signup_for_activity activities ("Chess Club") ("alice@mergington.edu")).2
            ("Chess Club") = some a ∧
        a.description = "Learn strategies and compete in chess tournaments" ∧
        a.schedule = "Fridays, 3:30 PM - 5:00 PM" ∧
        a.max_participants = 12) :=
  ⟨(signup_frame activities ("Chess Club") ("alice@mergington.edu")
      { description := "Learn strategies and compete in chess tournaments",
        schedule := "Fridays, 3:30 PM - 5:00 PM",
        max_participants := 12,
        participants := ["michael@mergington.edu", "daniel@mergington.edu"] }
      (by rfl) (by decide)).1 ("Gym Class") (by decide),
   (signup_frame activities ("Chess Club") ("alice@mergington.edu")
      { description := "Learn strategies and compete in chess tournaments",
        schedule := "Fridays, 3:30 PM - 5:00 PM",
        max_participants := 12,
        participants := ["michael@mergington.edu", "daniel@mergington.edu"] }
      (by rfl) (by decide)).2⟩

/-- Claim C9: the duplicate check is scoped to the named activity only: an
email already enrolled in activity a can still sign up for a different
activity b in which it is not yet enrolled, and that signup succeeds with
HTTP 200. -/
theorem signup_scope_per_activity (store : Store) (email a b : String)
    (actA actB : Activity)
    (ha : lookupActivity store a = some actA)
    (hmem : email ∈ actA.participants)
    (hb : lookupActivity store b = some actB)
    (hnb : email ∉ actB.participants) :
    ((signup_for_activity store b email).1).status = 200 ∧
    (signup_for_activity store b email).1 =
      Response.success (("Signed up ") ++ email ++ (" for ") ++ b) := by
  simp [signup_for_activity, hb, hnb, Response.status]

/-- Witness for C9 at the seed store: michael@mergington.edu is enrolled in
Chess Club and the signup for Gym Class still succeeds with 200. -/
theorem signup_scope_per_activity_w :
    ((signup_for_activity activities ("Gym Class") ("michael@mergington.edu")).1).status
        = 200 ∧
    (signup_for_activity activities ("Gym Class") ("michael@mergington.edu")).1 =
      Response.success (("Signed up ") ++ ("michael@mergington.edu") ++
        (" for ") ++ ("Gym Class")) :=
  signup_scope_per_activity activities ("michael@mergington.edu")
    ("Chess Club") ("Gym Class")
    { description := "Learn strategies and compete in chess tournaments",
      schedule := "Fridays, 3:30 PM - 5:00 PM",
      max_participants := 12,
      participants := ["michael@mergington.edu", "daniel@mergington.edu"] }
    { description := "Physical education and sports activities",
      schedule := "Mondays, Wednesdays, Fridays, 2:00 PM - 3:00 PM",
      max_participants := 30,
      participants := ["john@mergington.edu", "olivia@mergington.edu"] }
    (by rfl) (by decide) (by rfl) (by decide)

/-- Claim C10: activity lookup is an exact, case-sensitive string
comparison with no trimming or normalization: any name that differs in any
character from each of the three seed keys, including only in letter case
or in surrounding whitespace, gets HTTP 404 with detail "Activity not
found" and leaves the store unchanged. -/
theorem signup_name_exact_match (activity_name email : String)
    (h1 : activity_name ≠ "Chess Club")
    (h2 : activity_name ≠ "Programming Class")
    (h3 : activity_name ≠ "Gym Class") :
    signup_for_activity activities activity_name email =
      (Response.error 404 ("Activity not found"), activities) := by
  have hk : lookupActivity activities activity_name = none := by
    simp [activities, lookupActivity, Ne.symm h1, Ne.symm h2, Ne.symm h3]
  simp [signup_for_activity, hk]

/-- Witness for C10: a lowercased seed name and a seed name with a trailing
space both get 404 on the seed store. -/
theorem signup_name_exact_match_w :
    signup_for_activity activities ("chess club") ("x@mergington.edu") =
      (Response.error 404 ("Activity not found"), activities) ∧
    signup_for_activity activities ("Chess Club ") ("x@mergington.edu") =
      (Response.error 404 ("Activity not found"), activities) :=
  ⟨signup_name_exact_match ("chess club") ("x@mergington.edu")
      (by decide) (by decide) (by decide),
   signup_name_exact_match ("Chess Club ") ("x@mergington.edu")
      (by decide) (by decide) (by decide)⟩
